import Mathlib

/-!
Shallow embedding of the gateway streaming core:
`src/jina/serve/runtimes/gateway/streamer.py` and
`src/jina/serve/runtimes/asyncio.py`.

Documents are an arbitrary type `α`; machine details (event loop, gRPC
transport) appear only through the outcomes the embedded code inspects.
-/

/-- Python truthiness of an optional string (`if exec_endpoint:` in
`_req_generator`): `None` and the empty string are falsy. -/
def pyTruthyStr : Option String → Bool
  | none => false
  | some s => !s.isEmpty

/-- Python truthiness of an optional dict (`if parameters:` in
`_req_generator`): `None` and the empty dict are falsy. -/
def pyTruthyDict : Option (List (String × String)) → Bool
  | none => false
  | some d => !d.isEmpty

/-- `DocumentArray.batch(batch_size=request_size, shuffle=False)` as
`stream_docs._req_generator` iterates it: successive chunks of `batch_size`
documents in order, the last chunk possibly smaller. The `batch_size = 0`
branch is never reached by the embedded callers, which require a positive
request size. -/
def batchList {α : Type} (batch_size : Nat) (docs : List α) : List (List α) :=
  if h : docs.length = 0 ∨ batch_size = 0 then []
  else docs.take batch_size :: batchList batch_size (docs.drop batch_size)
termination_by docs.length
decreasing_by
  push_neg at h
  simp only [List.length_drop]
  omega

theorem batchList_nil {α : Type} (k : Nat) : batchList k ([] : List α) = [] := by
  unfold batchList
  simp

theorem batchList_cons {α : Type} (k : Nat) (hk : k ≠ 0) (docs : List α)
    (hd : docs ≠ []) :
    batchList k docs = docs.take k :: batchList k (docs.drop k) := by
  conv_lhs => unfold batchList
  rw [dif_neg (not_or.mpr ⟨fun hlen => hd (List.length_eq_zero.mp hlen), hk⟩)]

theorem batchList_length {α : Type} (k : Nat) (hk : 0 < k) (docs : List α) :
    (batchList k docs).length = (docs.length + k - 1) / k := by
  rcases eq_or_ne docs [] with h | h
  · subst h
    rw [batchList_nil]
    simp only [List.length_nil]
    rw [Nat.div_eq_of_lt (by omega)]
  · have hn : 0 < docs.length := List.length_pos.mpr h
    rw [batchList_cons k (by omega) docs h, List.length_cons,
      batchList_length k hk (docs.drop k), List.length_drop]
    rcases Nat.lt_or_ge k docs.length with hlt | hge
    · have h3 : docs.length - k + k - 1 = (docs.length - k - 1) + k := by omega
      have h4 : docs.length + k - 1 = (docs.length - 1) + k := by omega
      rw [h3, h4, Nat.add_div_right _ hk, Nat.add_div_right _ hk]
      have h5 : docs.length - 1 = (docs.length - k - 1) + k := by omega
      rw [h5, Nat.add_div_right _ hk]
    · have h1 : docs.length - k = 0 := Nat.sub_eq_zero_of_le hge
      rw [h1, Nat.div_eq_of_lt (by omega)]
      have h3 : docs.length + k - 1 = (docs.length - 1) + k := by omega
      rw [h3, Nat.add_div_right _ hk, Nat.div_eq_of_lt (by omega)]
termination_by docs.length
decreasing_by
  simp only [List.length_drop]
  omega

theorem batchList_getElem {α : Type} (k : Nat) (hk : 0 < k) (docs : List α) :
    ∀ (i : Nat) (h : i < (batchList k docs).length),
      (batchList k docs)[i] = (docs.drop (i * k)).take k := by
  rcases eq_or_ne docs [] with hd | hd
  · subst hd
    intro i h
    rw [batchList_nil] at h
    simp at h
  · rw [batchList_cons k (by omega) docs hd]
    intro i h
    match i with
    | 0 => simp
    | j + 1 =>
      have hj : j < (batchList k (docs.drop k)).length := by
        simpa using h
      have hrec := batchList_getElem k hk (docs.drop k) j hj
      simp only [List.getElem_cons_succ]
      rw [hrec, List.drop_drop]
      have harith : k + j * k = (j + 1) * k := by ring
      rw [harith]
termination_by docs.length
decreasing_by
  have hpos : 0 < docs.length := List.length_pos.mpr hd
  simp only [List.length_drop]
  omega

theorem batchList_flatten {α : Type} (k : Nat) (hk : 0 < k) (docs : List α) :
    (batchList k docs).flatten = docs := by
  rcases eq_or_ne docs [] with h | h
  · subst h
    rw [batchList_nil]
    rfl
  · have hn : 0 < docs.length := List.length_pos.mpr h
    rw [batchList_cons k (by omega) docs h, List.flatten_cons,
      batchList_flatten k hk (docs.drop k), List.take_append_drop]
termination_by docs.length
decreasing_by
  simp only [List.length_drop]
  omega

/-- The outcome of one jina `StatusProto.exception`
(`result.status.exception` in `GatewayStreamer.stream`). -/
structure ExceptionProto where
  name : String
  args : List String
  «stacks» : List String
  executor : String
deriving DecidableEq, Repr

/-- `jina_pb2.StatusProto` status codes (`SUCCESS` is the code the spec calls
`OK`). -/
inductive StatusCode where
  | SUCCESS
  | ERROR
deriving DecidableEq, Repr

/-- `result.status`: a code plus the exception payload read when the code is
`ERROR`. -/
structure StatusProto where
  code : StatusCode
  exception : ExceptionProto
deriving DecidableEq, Repr

/-- A request as `_req_generator` (streamer.py 228-238) builds it: the docs
payload plus the header fields and parameters set only when the corresponding
argument is Python-truthy. -/
structure DataRequest (α : Type) where
  docs : List α
  exec_endpoint : Option String
  target_executor : Option String
  parameters : Option (List (String × String))
deriving DecidableEq, Repr

/-- A response coming back from the executors: the (possibly transformed) docs
plus the status the handler set. -/
structure Response (α : Type) where
  docs : List α
  status : StatusProto
deriving DecidableEq, Repr

/-- Modelled from the spec: `RequestStreamer` (jina/serve/stream, not under
src/) "converts a client-supplied request iterator into a response iterator";
the per-request work is the gateway's request/response handler. -/
structure RequestStreamer (α : Type) where
  request_handler : DataRequest α → Response α

/-- Modelled from the spec: `RequestStreamer.stream` consumes the request
iterator and produces the response iterator, one response per admitted request
("errors are data, not exceptions, once a request has been admitted"). -/
def RequestStreamer.stream {α : Type} (self : RequestStreamer α)
    (request_iterator : List (DataRequest α)) (_results_in_order : Bool) :
    List (Response α) :=
  request_iterator.map self.request_handler

/-- The facade object (streamer.py `GatewayStreamer`): it owns the inner
`RequestStreamer` built in `__init__`. -/
structure GatewayStreamer (α : Type) where
  _streamer : RequestStreamer α

/-- `GatewayStreamer.rpc_stream` (streamer.py 148-156): returns
`self._streamer.stream(*args, **kwargs)`. -/
def GatewayStreamer.rpc_stream {α : Type} (self : GatewayStreamer α)
    (request_iterator : List (DataRequest α)) (results_in_order : Bool) :
    List (Response α) :=
  self._streamer.stream request_iterator results_in_order

/-- Streamer.py line 255: `Call = rpc_stream` — the class attribute is the very
same function. -/
def GatewayStreamer.Call {α : Type} :
    GatewayStreamer α → List (DataRequest α) → Bool → List (Response α) :=
  GatewayStreamer.rpc_stream

/-- `_req_generator` (streamer.py 228-238): one `DataRequest` per batch of
`docs.batch(batch_size=request_size, shuffle=False)`, carrying that batch and
the truthy header fields. -/
def _req_generator {α : Type} (request_size : Nat)
    (exec_endpoint target_executor : Option String)
    (parameters : Option (List (String × String))) (docs : List α) :
    List (DataRequest α) :=
  (batchList request_size docs).map fun docs_batch =>
    { docs := docs_batch
      exec_endpoint := if pyTruthyStr exec_endpoint then exec_endpoint else none
      target_executor := if pyTruthyStr target_executor then target_executor else none
      parameters := if pyTruthyDict parameters then parameters else none }

/-- What one iteration of `stream_docs` yields: the full response when
`return_results` is set, otherwise its documents. -/
inductive StreamDocsYield (α : Type) where
  | resp (r : Response α)
  | docs (d : List α)
deriving DecidableEq, Repr

/-- `GatewayStreamer.stream_docs` (streamer.py 204-246): feed
`_req_generator()` through `rpc_stream` and yield, per response, either the
response or its docs. -/
def GatewayStreamer.stream_docs {α : Type} (self : GatewayStreamer α)
    (docs : List α) (request_size : Nat) (return_results : Bool)
    (exec_endpoint target_executor : Option String)
    (parameters : Option (List (String × String))) (results_in_order : Bool) :
    List (StreamDocsYield α) :=
  (self.rpc_stream
      (_req_generator request_size exec_endpoint target_executor parameters docs)
      results_in_order).map fun resp =>
    if return_results then StreamDocsYield.resp resp else StreamDocsYield.docs resp.docs

/-- `jina.excepts.ExecutorError` as `GatewayStreamer.stream` constructs it. -/
structure ExecutorError where
  name : String
  args : List String
  «stacks» : List String
  executor : String
deriving DecidableEq, Repr

/-- The error unpacking inside `GatewayStreamer.stream` (streamer.py 189-197):
`error = None`, overwritten with an `ExecutorError` built from
`status.exception` exactly when `status.code == ERROR`. -/
def unpackExecutorError (status : StatusProto) : Option ExecutorError :=
  if status.code = StatusCode.ERROR then
    some
      { name := status.exception.name
        args := status.exception.args
        «stacks» := status.exception.«stacks»
        executor := status.exception.executor }
  else none

/-- `GatewayStreamer.stream` (streamer.py 158-202): iterate
`stream_docs(..., return_results=True)` — that is, the responses of
`rpc_stream` over `_req_generator` — and yield each response (or its docs)
paired with the unpacked error. -/
def GatewayStreamer.stream {α : Type} (self : GatewayStreamer α)
    (docs : List α) (request_size : Nat) (return_results : Bool)
    (exec_endpoint target_executor : Option String)
    (parameters : Option (List (String × String))) (results_in_order : Bool) :
    List (StreamDocsYield α × Option ExecutorError) :=
  (self.rpc_stream
      (_req_generator request_size exec_endpoint target_executor parameters docs)
      results_in_order).map fun result =>
    let error := unpackExecutorError result.status
    if return_results then (StreamDocsYield.resp result, error)
    else (StreamDocsYield.docs result.docs, error)

/-- Observable steps of `GatewayStreamer.close` (streamer.py 248-253), in the
order the sequential `await`s produce them. -/
inductive CloseEvent where
  | floatingDone (task : Nat)
  | poolClose
deriving DecidableEq, Repr

/-- Modelled from the spec: `RequestStreamer.wait_floating_requests_end`
(jina/serve/stream, not under src/) "drains this registry (await all) before
returning" — its trace is the completion of every registered floating task. -/
def wait_floating_requests_end (floating_tasks : List Nat) : List CloseEvent :=
  floating_tasks.map CloseEvent.floatingDone

/-- `GrpcConnectionPool.close` (jina/serve/networking, not under src/): closes
the pool; one trace event. -/
def connection_pool_close : List CloseEvent :=
  [CloseEvent.poolClose]

/-- `GatewayStreamer.close` (streamer.py 248-253): first
`await self._streamer.wait_floating_requests_end()`, then
`await self._connection_pool.close()`; the trace is their concatenation in
that order. `floating_tasks` are the floating tasks registered by prior
requests. -/
def GatewayStreamer.close (floating_tasks : List Nat) : List CloseEvent :=
  wait_floating_requests_end floating_tasks ++ connection_pool_close

/-- JSON values, the payloads `json.dumps` and `json.loads` exchange. The
environment model below stores the parsed value: `json.dumps` is injective on
canonical values and `json.loads (json.dumps d) = d` for every
JSON-serializable `d`, so a stored serialized string is identified with the
value it denotes. -/
inductive Json where
  | null
  | bool (b : Bool)
  | num (n : Int)
  | str (s : String)
  | arr (elems : List Json)
  | obj (fields : List (String × Json))

/-- `os.environ`, keyed by variable name. -/
def EnvMap : Type := String → Option Json

/-- An environment with no variable set. -/
def emptyEnv : EnvMap := fun _ => none

/-- `GatewayStreamer._set_env_streamer_args(**kwargs)` (streamer.py 284-286):
`os.environ['JINA_STREAMER_ARGS'] = json.dumps(kwargs)`. -/
def GatewayStreamer._set_env_streamer_args (kwargs : List (String × Json))
    (env : EnvMap) : EnvMap :=
  fun key => if key = "JINA_STREAMER_ARGS" then some (Json.obj kwargs) else env key

/-- The result of `GatewayStreamer(**args_dict)` in `get_streamer`: a streamer
constructed with exactly the keyword arguments read back from the
environment. -/
structure GatewayStreamerCtor where
  kwargs : List (String × Json)

/-- How `get_streamer` fails: `OSError` when the variable is unset; a
non-`OSError` failure when the loaded JSON is not a dict and cannot be
splatted as keyword arguments. -/
inductive GetStreamerErr where
  | osError
  | typeError
deriving DecidableEq, Repr

/-- `GatewayStreamer.get_streamer` (streamer.py 267-282): if
`'JINA_STREAMER_ARGS' in os.environ`, `json.loads` it and construct
`GatewayStreamer(**args_dict)`; otherwise
`raise OSError('JINA_STREAMER_ARGS environment variable is not set')`. -/
def GatewayStreamer.get_streamer (env : EnvMap) :
    Except GetStreamerErr GatewayStreamerCtor :=
  match env "JINA_STREAMER_ARGS" with
  | some (Json.obj args_dict) => Except.ok { kwargs := args_dict }
  | some _ => Except.error GetStreamerErr.typeError
  | none => Except.error GetStreamerErr.osError

/-- An `executor_addresses` value: `Union[str, List[str]]` — one single
address or a list of addresses (constructor docstring, streamer.py 65). -/
inductive Addresses where
  | single (address : String)
  | many (addresses : List String)
deriving DecidableEq, Repr

/-- Python iteration `for address in addresses` (streamer.py 141): over a
`str` it yields the characters, each as a one-character string; over a list,
its elements. -/
def pyIterStrings : Addresses → List String
  | Addresses.single s => s.data.map (fun c => String.mk [c])
  | Addresses.many l => l

/-- One `connection_pool.add_connection(deployment=..., address=..., head=True)`
registration (streamer.py 142-144). -/
structure ConnectionEntry where
  deployment : String
  address : String
  head : Bool
deriving DecidableEq, Repr

/-- `GatewayStreamer._create_connection_pool` (streamer.py 120-146): the
connections registered in the fresh `GrpcConnectionPool` — for every
deployment, one `add_connection` per element of `for address in addresses`. -/
def _create_connection_pool
    (deployments_addresses : List (String × Addresses)) : List ConnectionEntry :=
  (deployments_addresses.map fun entry =>
    (pyIterStrings entry.2).map fun address =>
      { deployment := entry.1, address := address, head := true }).flatten

/-- The signals of asyncio.py: the three of `HANDLED_SIGNALS` (lines 22-26)
plus one that `__init__` does not register a handler for. -/
inductive Signal where
  | SIGINT
  | SIGTERM
  | SIGSEGV
  | SIGUSR1
deriving DecidableEq, Repr

/-- `HANDLED_SIGNALS` (asyncio.py 22-26). -/
def HANDLED_SIGNALS : List Signal :=
  [Signal.SIGINT, Signal.SIGTERM, Signal.SIGSEGV]

/-- The runtime state the signal handlers touch: the shared cancel event
`self.is_cancel`. -/
structure RuntimeState where
  is_cancel : Bool
deriving DecidableEq, Repr

/-- The registered handler body (`_inner_cancel`, and the windows `_cancel`):
`self.is_cancel.set()`. -/
def _inner_cancel (st : RuntimeState) : RuntimeState :=
  { st with is_cancel := true }

/-- Delivery of a signal to the runtime: `__init__` registers the handler for
every signal in `HANDLED_SIGNALS` (the non-windows `add_signal_handler` loop
and the windows `signal.signal` loop run the same body); a signal without a
registered handler leaves the cancel event alone. -/
def receiveSignal (st : RuntimeState) (sig : Signal) : RuntimeState :=
  if sig ∈ HANDLED_SIGNALS then _inner_cancel st else st

/-- Calls `_wait_for_cancel` makes after the event-wait completes. -/
inductive RtEvent where
  | asyncCancel
deriving DecidableEq, Repr

/-- The event-wait of `_wait_for_cancel` (asyncio.py 124-131): check
`isSetAt` at times `t, t + step, t + 2*step, ...` (milliseconds) and return
the first check time at which the event is set. For a native `asyncio.Event`
the await wakes at the set time (`step = 1`, the clock tick); otherwise the
loop re-checks after `await asyncio.sleep(0.1)` (`step = 100`). `fuel` bounds
the unrolling of the unbounded loop. -/
def firstSetAt (isSetAt : Nat → Bool) (step : Nat) : Nat → Nat → Option Nat
  | 0, _ => none
  | fuel + 1, t => if isSetAt t then some t else firstSetAt isSetAt step fuel (t + step)

/-- `_wait_for_cancel` (asyncio.py 124-133): wait for the cancel event —
awaiting it directly when `is_cancel` is an `asyncio.Event`, else polling
every 100 ms — then `await self.async_cancel()`. Returns the completion time
and the trace of calls made after the wait. -/
def _wait_for_cancel (is_asyncio_event : Bool) (isSetAt : Nat → Bool)
    (fuel : Nat) : Option (Nat × List RtEvent) :=
  match firstSetAt isSetAt (if is_asyncio_event then 1 else 100) fuel 0 with
  | some t => some (t, [RtEvent.asyncCancel])
  | none => none

/-- `run_forever` (asyncio.py 86-92): `run_until_complete(_loop_body())`;
`_loop_body` gathers `async_run_forever()` with `_wait_for_cancel()` and the
gather completes when `_wait_for_cancel` does (`async_cancel` is what stops
`async_run_forever`). -/
def run_forever (is_asyncio_event : Bool) (isSetAt : Nat → Bool)
    (fuel : Nat) : Option (Nat × List RtEvent) :=
  _wait_for_cancel is_asyncio_event isSetAt fuel

/-- `asyncio.gather(*tasks, return_exceptions=True)` (streamer.py 309): the
exceptions of the gathered tasks are returned inside the result list instead
of being raised, so the gather itself completes normally. -/
def asyncio_gather_return_exceptions {ε α : Type} (results : List (Except ε α)) :
    Except ε (List (Except ε α)) :=
  Except.ok results

/-- `GatewayStreamer.warmup` (streamer.py 288-317): start one
`_connection_pool.warmup(deployment, stop_event)` task per deployment of
`executor_addresses`, gather them with `return_exceptions=True`, and absorb
any exception of the surrounding block with `except Exception: log; return`.
`task_outcome` gives each deployment task's outcome (success, or the
exception it raised — which may depend on `stop_event`). -/
def GatewayStreamer.warmup {ε : Type} (executor_addresses : List String)
    (task_outcome : String → Except ε Unit) : Except ε Unit :=
  match asyncio_gather_return_exceptions (executor_addresses.map task_outcome) with
  | Except.ok _results => Except.ok ()
  | Except.error _ex => Except.ok ()

/-- `grpc_health.v1` serving statuses. -/
inductive ServingStatus where
  | UNKNOWN
  | SERVING
  | NOT_SERVING
deriving DecidableEq, Repr

/-- The health-check RPC response (`HealthCheckResponse`). -/
structure HealthCheckResponse where
  status : ServingStatus
deriving DecidableEq, Repr

/-- A transport failure of the RPC layer (`grpc.RpcError`). -/
inductive RpcError where
  | rpcError (message : String)
deriving DecidableEq, Repr

/-- `AsyncNewLoopRuntime.is_ready` (asyncio.py 183-202): the outcome of
`send_health_check_sync(ctrl_address, timeout)` is the argument; on a
response it returns `status == SERVING`, a raised `RpcError` is caught and
yields `False`. -/
def is_ready (health_check : Except RpcError HealthCheckResponse) : Bool :=
  match health_check with
  | Except.ok response => response.status == ServingStatus.SERVING
  | Except.error _ => false

/-- `AsyncNewLoopRuntime.async_is_ready` (asyncio.py 204-221): the same
decision over `send_health_check_async`. -/
def async_is_ready (health_check : Except RpcError HealthCheckResponse) : Bool :=
  match health_check with
  | Except.ok response => response.status == ServingStatus.SERVING
  | Except.error _ => false

theorem close_getElem_lt (floating_tasks : List Nat) (i : Nat)
    (h : i < floating_tasks.length) :
    (GatewayStreamer.close floating_tasks)[i]?
      = some (CloseEvent.floatingDone floating_tasks[i]) := by
  unfold GatewayStreamer.close wait_floating_requests_end
  rw [List.getElem?_append_left (by simpa using h), List.getElem?_map,
    List.getElem?_eq_getElem h]
  rfl

theorem close_getElem_ge (floating_tasks : List Nat) (i : Nat)
    (h : floating_tasks.length ≤ i) :
    (GatewayStreamer.close floating_tasks)[i]?
      = if i = floating_tasks.length then some CloseEvent.poolClose else none := by
  unfold GatewayStreamer.close wait_floating_requests_end connection_pool_close
  rw [List.getElem?_append_right (by simpa using h)]
  rcases Nat.eq_or_lt_of_le h with heq | hlt
  · rw [if_pos heq.symm]
    have hz : i - (floating_tasks.map CloseEvent.floatingDone).length = 0 := by
      simp
      omega
    rw [hz]
    rfl
  · rw [if_neg (by omega)]
    have hz : 1 ≤ i - (floating_tasks.map CloseEvent.floatingDone).length := by
      simp
      omega
    rw [List.getElem?_eq_none (by simpa using hz)]

/-- C3: in the trace of `GatewayStreamer.close`, every floating-task
completion produced by `wait_floating_requests_end` strictly precedes the
connection-pool close, every floating task registered by prior requests does
complete, and the pool close is the final event — the pool is never closed
before the floating-request drain completes. -/
theorem close_drains_floating_before_pool (floating_tasks : List Nat) :
    (∀ (i j t : Nat),
        (GatewayStreamer.close floating_tasks)[i]?
            = some (CloseEvent.floatingDone t) →
        (GatewayStreamer.close floating_tasks)[j]? = some CloseEvent.poolClose →
        i < j)
    ∧ (∀ t ∈ floating_tasks,
        CloseEvent.floatingDone t ∈ GatewayStreamer.close floating_tasks)
    ∧ (GatewayStreamer.close floating_tasks).getLast?
        = some CloseEvent.poolClose := by
  refine ⟨?_, ?_, ?_⟩
  · intro i j t hi hj
    have hiLt : i < floating_tasks.length := by
      by_contra hge
      push_neg at hge
      rw [close_getElem_ge floating_tasks i hge] at hi
      rcases eq_or_ne i floating_tasks.length with he | hne
      · rw [if_pos he] at hi
        exact CloseEvent.noConfusion (Option.some.inj hi)
      · rw [if_neg hne] at hi
        exact Option.noConfusion hi
    have hjGe : floating_tasks.length ≤ j := by
      by_contra hlt
      push_neg at hlt
      rw [close_getElem_lt floating_tasks j hlt] at hj
      exact CloseEvent.noConfusion (Option.some.inj hj)
    omega
  · intro t ht
    unfold GatewayStreamer.close wait_floating_requests_end
    exact List.mem_append_left _ (List.mem_map_of_mem _ ht)
  · unfold GatewayStreamer.close connection_pool_close
    rw [List.getLast?_concat]

/-- C3 witness: with two floating tasks registered, the drain completes both
before the single pool-close event, which is last. -/
theorem close_drains_floating_before_pool_witness :
    CloseEvent.floatingDone 7 ∈ GatewayStreamer.close [7, 8]
    ∧ (GatewayStreamer.close [7, 8]).getLast? = some CloseEvent.poolClose
    ∧ (0 : Nat) < 2 := by
  have h := close_drains_floating_before_pool [7, 8]
  exact ⟨h.2.1 7 (by decide), h.2.2, h.1 0 2 7 (by decide) (by decide)⟩

/-- C4 counterexample: the handoff is not through a variable named
`GATEWAY_STREAMER_ARGS` — after `_set_env_streamer_args` that variable is
still unset while `JINA_STREAMER_ARGS` holds the serialized kwargs, and
`get_streamer` on an environment where only `GATEWAY_STREAMER_ARGS` is set
still raises `OSError`. -/
theorem set_env_streamer_args_gateway_var_unset :
    (GatewayStreamer._set_env_streamer_args [("retries", Json.num 3)] emptyEnv)
        "GATEWAY_STREAMER_ARGS" = none
    ∧ (GatewayStreamer._set_env_streamer_args [("retries", Json.num 3)] emptyEnv)
        "JINA_STREAMER_ARGS" = some (Json.obj [("retries", Json.num 3)])
    ∧ GatewayStreamer.get_streamer
        (fun key => if key = "GATEWAY_STREAMER_ARGS"
            then some (Json.obj [("retries", Json.num 3)]) else none)
        = Except.error GetStreamerErr.osError :=
  ⟨rfl, rfl, rfl⟩

/-- C4 amended: for every kwargs dict, `_set_env_streamer_args(**kwargs)`
followed by `get_streamer()` constructs a `GatewayStreamer` with exactly
`kwargs` as constructor arguments, and the handoff is performed through the
environment variable named `JINA_STREAMER_ARGS` holding the JSON serialization
of `kwargs`; no other variable is touched. -/
theorem streamer_args_env_roundtrip (kwargs : List (String × Json)) (env : EnvMap) :
    GatewayStreamer.get_streamer (GatewayStreamer._set_env_streamer_args kwargs env)
        = Except.ok { kwargs := kwargs }
    ∧ (GatewayStreamer._set_env_streamer_args kwargs env) "JINA_STREAMER_ARGS"
        = some (Json.obj kwargs)
    ∧ ∀ key, key ≠ "JINA_STREAMER_ARGS" →
        (GatewayStreamer._set_env_streamer_args kwargs env) key = env key := by
  refine ⟨rfl, rfl, fun key hkey => ?_⟩
  unfold GatewayStreamer._set_env_streamer_args
  rw [if_neg hkey]

/-- C5: `GatewayStreamer.Call` and `GatewayStreamer.rpc_stream` are aliases of
the same method: the class attribute is the very same function, and for every
argument list both delegate to the identical underlying
`RequestStreamer.stream` call and produce the same response iterator. -/
theorem Call_rpc_stream_alias {α : Type} :
    (@GatewayStreamer.Call α = @GatewayStreamer.rpc_stream α)
    ∧ ∀ (g : GatewayStreamer α) (request_iterator : List (DataRequest α))
        (results_in_order : Bool),
        GatewayStreamer.Call g request_iterator results_in_order
            = g._streamer.stream request_iterator results_in_order
        ∧ GatewayStreamer.rpc_stream g request_iterator results_in_order
            = g._streamer.stream request_iterator results_in_order :=
  ⟨rfl, fun _ _ _ => ⟨rfl, rfl⟩⟩

/-- C7: for every set of deployments and every stop_event-dependent family of
per-deployment warmup outcomes, `GatewayStreamer.warmup` returns normally:
the gather returns the tasks' exceptions inside its result list instead of
raising them, and the surrounding handler absorbs any other failure, so no
warmup-task exception propagates to the caller. -/
theorem warmup_absorbs_failures {ε : Type} (executor_addresses : List String)
    (task_outcome : String → Except ε Unit) :
    GatewayStreamer.warmup executor_addresses task_outcome = Except.ok ()
    ∧ asyncio_gather_return_exceptions (executor_addresses.map task_outcome)
        = Except.ok (executor_addresses.map task_outcome) :=
  ⟨rfl, rfl⟩

/-- C8: `is_ready` (and `async_is_ready`, which decides identically) returns
`true` iff the health-check RPC responded with status `SERVING`; a raised
transport error yields `false` instead of propagating. -/
theorem is_ready_iff_serving (health_check : Except RpcError HealthCheckResponse) :
    (is_ready health_check = true
        ↔ ∃ response, health_check = Except.ok response
            ∧ response.status = ServingStatus.SERVING)
    ∧ async_is_ready health_check = is_ready health_check
    ∧ ∀ e : RpcError, is_ready (Except.error e) = false := by
  refine ⟨?_, ?_, fun e => rfl⟩
  · cases health_check with
    | ok response => simp [is_ready, beq_iff_eq]
    | error e => simp [is_ready]
  · cases health_check <;> rfl

/-- C9: evaluation at the failing input — a deployment mapped to the single
address string `"0.0.0.0:8080"` registers twelve connections, one per
character of the string (Python's `for address in addresses` iterates a `str`
by characters), not one connection at that address; the one-element list form
yields the intended single connection. -/
theorem create_connection_pool_string_address_bug :
    (_create_connection_pool
        [("executor0", Addresses.single "0.0.0.0:8080")]).length = 12
    ∧ _create_connection_pool [("executor0", Addresses.single "0.0.0.0:8080")]
        ≠ [{ deployment := "executor0", address := "0.0.0.0:8080", head := true }]
    ∧ _create_connection_pool [("executor0", Addresses.many ["0.0.0.0:8080"])]
        = [{ deployment := "executor0", address := "0.0.0.0:8080", head := true }] := by
  refine ⟨by decide, by decide, by decide⟩

/-- C10: when the streamer-args environment variable is not set,
`get_streamer` raises `OSError` and never returns a streamer instance; it
returns one only when the variable is present. -/
theorem get_streamer_env_required (env : EnvMap) :
    (env "JINA_STREAMER_ARGS" = none →
        GatewayStreamer.get_streamer env = Except.error GetStreamerErr.osError)
    ∧ ∀ ctor, GatewayStreamer.get_streamer env = Except.ok ctor →
        ∃ v, env "JINA_STREAMER_ARGS" = some v := by
  constructor
  · intro hnone
    unfold GatewayStreamer.get_streamer
    rw [hnone]
  · intro ctor hok
    unfold GatewayStreamer.get_streamer at hok
    cases henv : env "JINA_STREAMER_ARGS" with
    | some v => exact ⟨v, rfl⟩
    | none =>
        rw [henv] at hok
        exact Except.noConfusion hok

/-- C10 witness: on the empty environment `get_streamer` raises `OSError`. -/
theorem get_streamer_env_required_witness :
    GatewayStreamer.get_streamer emptyEnv = Except.error GetStreamerErr.osError :=
  (get_streamer_env_required emptyEnv).1 rfl

/-- C2: every pair yielded by `GatewayStreamer.stream` carries, alongside the
payload, exactly the unpacking of the matching response's status: the error
component is non-null iff the response's `status.code` is `ERROR`, in which
case it is a structured value carrying exactly the exception's name, args,
stacks and executor fields; when the code is `SUCCESS` (the spec's OK) the
error component is null. -/
theorem stream_unpacks_status_error {α : Type} (g : GatewayStreamer α)
    (docs : List α) (request_size : Nat) (return_results : Bool)
    (exec_endpoint target_executor : Option String)
    (parameters : Option (List (String × String))) (results_in_order : Bool) :
    ((g.stream docs request_size return_results exec_endpoint target_executor
          parameters results_in_order).map Prod.snd
        = (g.rpc_stream
            (_req_generator request_size exec_endpoint target_executor parameters docs)
            results_in_order).map (fun result => unpackExecutorError result.status))
    ∧ ∀ status : StatusProto,
        (unpackExecutorError status ≠ none ↔ status.code = StatusCode.ERROR)
        ∧ (status.code = StatusCode.ERROR →
            unpackExecutorError status
              = some { name := status.exception.name
                       args := status.exception.args
                       «stacks» := status.exception.«stacks»
                       executor := status.exception.executor })
        ∧ (status.code = StatusCode.SUCCESS → unpackExecutorError status = none) := by
  constructor
  · unfold GatewayStreamer.stream
    rw [List.map_map]
    cases return_results <;> rfl
  · intro status
    refine ⟨?_, ?_, ?_⟩
    · unfold unpackExecutorError
      rcases status with ⟨code, exc⟩
      cases code <;> simp
    · intro h
      unfold unpackExecutorError
      rw [if_pos h]
    · intro h
      unfold unpackExecutorError
      rw [if_neg (by rw [h]; exact fun hc => StatusCode.noConfusion hc)]

/-- C1: for every document sequence `docs` of length n and every
`request_size` k > 0, `stream_docs` issues ceil(n/k) = (n + k - 1) / k
requests; the i-th request carries `docs[i*k : i*k + k]` — the next k
documents of `docs` in order — so the last batch carries `n mod k` documents
when `n mod k` is nonzero; one response is yielded per request, and when
`docs` is empty zero requests are issued and the iterator yields nothing. -/
theorem stream_docs_batches {α : Type} (docs : List α) (request_size : Nat)
    (hk : 0 < request_size) (exec_endpoint target_executor : Option String)
    (parameters : Option (List (String × String))) :
    ((_req_generator request_size exec_endpoint target_executor parameters docs).length
        = (docs.length + request_size - 1) / request_size)
    ∧ (∀ (i : Nat)
          (h : i < (_req_generator request_size exec_endpoint target_executor
              parameters docs).length),
        ((_req_generator request_size exec_endpoint target_executor parameters
            docs)[i]).docs
          = (docs.drop (i * request_size)).take request_size)
    ∧ (docs.length % request_size ≠ 0 →
        ((_req_generator request_size exec_endpoint target_executor parameters
            docs).map (fun r => r.docs.length)).getLast?
          = some (docs.length % request_size))
    ∧ (∀ (g : GatewayStreamer α) (return_results results_in_order : Bool),
        (g.stream_docs docs request_size return_results exec_endpoint
            target_executor parameters results_in_order).length
          = (_req_generator request_size exec_endpoint target_executor parameters
              docs).length)
    ∧ (docs = [] →
        _req_generator request_size exec_endpoint target_executor parameters docs = []
        ∧ ∀ (g : GatewayStreamer α) (return_results results_in_order : Bool),
            g.stream_docs docs request_size return_results exec_endpoint
                target_executor parameters results_in_order = []) := by
  refine ⟨?_, ?_, ?_, ?_, ?_⟩
  · unfold _req_generator
    rw [List.length_map, batchList_length request_size hk docs]
  · intro i h
    unfold _req_generator at h ⊢
    rw [List.getElem_map]
    exact batchList_getElem request_size hk docs i (by simpa using h)
  · intro hmod
    have hn : docs ≠ [] := by
      intro h0
      subst h0
      simp at hmod
    have hnpos : 0 < docs.length := List.length_pos.mpr hn
    have hrpos : 0 < docs.length % request_size := Nat.pos_of_ne_zero hmod
    have hrlt : docs.length % request_size < request_size :=
      Nat.mod_lt _ hk
    have hdm : request_size * (docs.length / request_size)
        + docs.length % request_size = docs.length := Nat.div_add_mod _ _
    have hndvd : ¬ request_size ∣ docs.length := by
      intro hdvd
      exact hmod (Nat.mod_eq_zero_of_dvd hdvd)
    have hpred : docs.length / request_size = (docs.length - 1) / request_size := by
      have h3 : docs.length = (docs.length - 1) + 1 := by omega
      conv_lhs => rw [h3]
      rw [Nat.succ_div, if_neg (by rw [← h3]; exact hndvd)]
      omega
    have hblen : (batchList request_size docs).length
        = docs.length / request_size + 1 := by
      rw [batchList_length request_size hk docs]
      have h1 : docs.length + request_size - 1
          = (docs.length - 1) + request_size := by
        omega
      rw [h1, Nat.add_div_right _ hk, ← hpred]
    have hlen : ((_req_generator request_size exec_endpoint target_executor
        parameters docs).map (fun r => r.docs.length)).length
        = docs.length / request_size + 1 := by
      unfold _req_generator
      rw [List.length_map, List.length_map, hblen]
    have hidx : docs.length / request_size
        < ((_req_generator request_size exec_endpoint target_executor
            parameters docs).map (fun r => r.docs.length)).length := by
      omega
    rw [List.getLast?_eq_getElem?, hlen, Nat.add_sub_cancel,
      List.getElem?_eq_getElem hidx, List.getElem_map]
    have hreqlen : docs.length / request_size
        < (_req_generator request_size exec_endpoint target_executor
            parameters docs).length := by
      unfold _req_generator
      rw [List.length_map, hblen]
      omega
    have hdocs : ((_req_generator request_size exec_endpoint target_executor
        parameters docs)[docs.length / request_size]).docs
        = (docs.drop (docs.length / request_size * request_size)).take
            request_size := by
      unfold _req_generator at hreqlen ⊢
      rw [List.getElem_map]
      exact batchList_getElem request_size hk docs _ (by simpa using hreqlen)
    rw [hdocs]
    have hgen : ∀ p : Nat,
        p + docs.length % request_size = docs.length →
        min request_size (docs.length - p) = docs.length % request_size := by
      intro p hp
      omega
    rw [List.length_take, List.length_drop]
    rw [hgen (docs.length / request_size * request_size)
      (by rw [Nat.mul_comm]; exact hdm)]
  · intro g return_results results_in_order
    unfold GatewayStreamer.stream_docs GatewayStreamer.rpc_stream
      RequestStreamer.stream
    rw [List.length_map, List.length_map]
  · intro h0
    subst h0
    have hreq : _req_generator request_size exec_endpoint target_executor
        parameters ([] : List α) = [] := by
      unfold _req_generator
      rw [batchList_nil]
      rfl
    refine ⟨hreq, fun g return_results results_in_order => ?_⟩
    unfold GatewayStreamer.stream_docs GatewayStreamer.rpc_stream
      RequestStreamer.stream
    rw [hreq]
    rfl

/-- C1 witness: at `docs = [0, 1, 2, 3, 4]` and `request_size = 2`, three
requests are issued, the batches are `[0, 1]`, `[2, 3]`, `[4]`, and the last
carries `5 mod 2 = 1` document. -/
theorem stream_docs_batches_witness :
    (_req_generator 2 (some "ep") none none ([0, 1, 2, 3, 4] : List Nat)).length = 3
    ∧ ((_req_generator 2 (some "ep") none none ([0, 1, 2, 3, 4] : List Nat)).map
        (fun r => r.docs.length)).getLast? = some 1 := by
  have h := stream_docs_batches ([0, 1, 2, 3, 4] : List Nat) 2 (by decide)
    (some "ep") none none
  constructor
  · have h1 := h.1
    simpa using h1
  · have h3 := h.2.2.1 (by decide)
    simpa using h3

theorem firstSetAt_first (isSetAt : Nat → Bool) (step : Nat) :
    ∀ (fuel t0 t : Nat), firstSetAt isSetAt step fuel t0 = some t →
      isSetAt t = true ∧ t0 ≤ t ∧ step ∣ (t - t0)
      ∧ ∀ u, t0 ≤ u → step ∣ (u - t0) → u < t → isSetAt u = false := by
  intro fuel
  induction fuel with
  | zero =>
      intro t0 t h
      exact Option.noConfusion h
  | succ n ih =>
      intro t0 t h
      unfold firstSetAt at h
      by_cases hset : isSetAt t0 = true
      · rw [if_pos hset] at h
        obtain rfl : t0 = t := Option.some.inj h
        refine ⟨hset, Nat.le_refl _, by simp, ?_⟩
        intro u hu hdvd hlt
        omega
      · rw [if_neg hset] at h
        obtain ⟨h1, h2, h3, h4⟩ := ih (t0 + step) t h
        refine ⟨h1, by omega, ?_, ?_⟩
        · obtain ⟨c, hc⟩ := h3
          refine ⟨c + 1, ?_⟩
          have hmul : step * (c + 1) = step * c + step := by ring
          omega
        · intro u hu hdvd hlt
          rcases Nat.lt_or_ge u (t0 + step) with hlt2 | hge2
          · obtain ⟨c, hc⟩ := hdvd
            have hu0 : u = t0 := by
              rcases Nat.eq_zero_or_pos c with h0 | hp
              · subst h0
                simp at hc
                omega
              · have hle : step ≤ step * c := Nat.le_mul_of_pos_right step hp
                omega
            rw [hu0]
            exact Bool.not_eq_true (isSetAt t0) ▸ eq_false_of_ne_true hset
          · have hsub : u - (t0 + step) = (u - t0) - step := by omega
            exact h4 u hge2 (hsub ▸ Nat.dvd_sub' hdvd (dvd_refl step)) hlt

/-- C6: receipt of `SIGINT`, `SIGTERM` or `SIGSEGV` sets the runtime's shared
cancel event; and `run_forever` returns only once the cancel event is set,
completing at the first event-wait check at which it is set and then invoking
`async_cancel` — for the non-native-event branch the checks are exactly
100 ms apart, so `run_forever` is the awaiting of the cancel event at that
granularity; for a native `asyncio.Event` it wakes at the set time itself. -/
theorem run_forever_awaits_cancel :
    (∀ (st : RuntimeState) (sig : Signal), sig ∈ HANDLED_SIGNALS →
        (receiveSignal st sig).is_cancel = true)
    ∧ ∀ (is_asyncio_event : Bool) (isSetAt : Nat → Bool) (fuel t : Nat)
        (trace : List RtEvent),
        run_forever is_asyncio_event isSetAt fuel = some (t, trace) →
          isSetAt t = true
          ∧ trace = [RtEvent.asyncCancel]
          ∧ (is_asyncio_event = false → t % 100 = 0
              ∧ ∀ u, u % 100 = 0 → u < t → isSetAt u = false)
          ∧ (is_asyncio_event = true → ∀ u, u < t → isSetAt u = false) := by
  constructor
  · intro st sig hsig
    unfold receiveSignal
    rw [if_pos hsig]
    rfl
  · intro is_asyncio_event isSetAt fuel t trace h
    unfold run_forever _wait_for_cancel at h
    cases hfs : firstSetAt isSetAt (if is_asyncio_event then 1 else 100) fuel 0 with
    | none =>
        rw [hfs] at h
        exact Option.noConfusion h
    | some t1 =>
        rw [hfs] at h
        obtain ⟨heq1, heq2⟩ := Prod.mk.inj (Option.some.inj h)
        rw [heq1] at hfs
        refine ⟨?_, heq2.symm, ?_, ?_⟩
        · exact (firstSetAt_first isSetAt _ fuel 0 t hfs).1
        · intro hiae
          subst hiae
          simp only [Bool.false_eq_true, if_neg] at hfs
          obtain ⟨h1, h2, h3, h4⟩ := firstSetAt_first isSetAt 100 fuel 0 t hfs
          constructor
          · have hd : (100 : Nat) ∣ t := by simpa using h3
            omega
          · intro u hu hlt
            exact h4 u (Nat.zero_le u) (by simpa using Nat.dvd_of_mod_eq_zero hu) hlt
        · intro hiae
          subst hiae
          simp only [if_pos] at hfs
          obtain ⟨h1, h2, h3, h4⟩ := firstSetAt_first isSetAt 1 fuel 0 t hfs
          intro u hlt
          exact h4 u (Nat.zero_le u) (one_dvd _) hlt

/-- C6 witness: with the cancel event set from 250 ms on and the polling
branch, `run_forever` returns at the 300 ms check with the `async_cancel`
trace, and no earlier 100 ms check saw the event set. -/
theorem run_forever_awaits_cancel_witness :
    (fun n => decide (250 ≤ n)) 300 = true
    ∧ (300 : Nat) % 100 = 0
    ∧ ∀ u, u % 100 = 0 → u < 300 → (fun n => decide (250 ≤ n)) u = false := by
  have h := run_forever_awaits_cancel.2 false (fun n => decide (250 ≤ n)) 10 300
    [RtEvent.asyncCancel] (by decide)
  exact ⟨h.1, (h.2.2.1 rfl).1, (h.2.2.1 rfl).2⟩
